import Mathlib

/-!
# Verification of the kalshibook ingestion collector

Shallow embedding of the collector components (`src/collector/processor.py`,
`discovery.py`, `writer.py`, `connection.py`) and proofs about the claimed
invariants.  Python `datetime` values are abstracted as `Nat` ticks; message
dictionaries become structures whose fields carry the `dict.get` defaults of
the source.
-/

namespace Kalshibook

/-- `MarketSubscription` from `src/collector/models.py`: tracks per-ticker
subscription state.  `subscribed_at = none` models Python `None`. -/
structure MarketSubscription where
  ticker : String
  sid : Int
  last_seq : Int
  subscribed_at : Option Nat
  is_stale : Bool
  deriving Repr, DecidableEq

/-- Freshly-constructed `MarketSubscription(ticker=t)` with dataclass defaults
(`sid=0`, `last_seq=-1`, `subscribed_at=None`, `is_stale=False`). -/
def MarketSubscription.fresh (t : String) : MarketSubscription :=
  { ticker := t, sid := 0, last_seq := -1, subscribed_at := none, is_stale := false }

/-- `OrderbookSnapshot` from `models.py` (levels are `[price_cents, qty]` pairs;
`ts` is the parsed timestamp abstracted as a tick). -/
structure OrderbookSnapshot where
  market_ticker : String
  seq : Int
  sid : Int
  yes : List (Int × Int)
  no : List (Int × Int)
  ts : Nat
  deriving Repr, DecidableEq

/-- `OrderbookDelta` from `models.py`. -/
structure OrderbookDelta where
  market_ticker : String
  seq : Int
  sid : Int
  price : Int
  delta : Int
  side : String
  ts : Nat
  deriving Repr, DecidableEq

/-- `GapRecord` from `models.py`. -/
structure GapRecord where
  market_ticker : String
  detected_at : Nat
  expected_seq : Int
  received_seq : Int
  sid : Int
  deriving Repr, DecidableEq

/-- An inbound WS frame as consumed by `handle_snapshot` / `handle_delta`:
the envelope fields `sid`/`seq` (default 0) and the `msg` payload fields with
their `dict.get` defaults (`market_ticker` defaults to `""` when absent, so an
absent ticker and an empty-string ticker are the same value here, exactly as
in the source).  `ts` stands for the already-parsed timestamp. -/
structure WsMsg where
  sid : Int := 0
  seq : Int := 0
  market_ticker : String := ""
  yes : List (Int × Int) := []
  no : List (Int × Int) := []
  price : Int := 0
  delta : Int := 0
  side : String := ""
  ts : Nat := 0
  deriving Repr, DecidableEq

/-- Effects the processor produces through its callbacks
(`on_snapshot_ready`, `on_delta_ready`, `on_gap_record`, `_on_resubscribe`). -/
inductive ProcEffect where
  | emitSnapshot (s : OrderbookSnapshot)
  | emitDelta (d : OrderbookDelta)
  | emitGap (g : GapRecord)
  | resubscribe (ticker : String)
  deriving Repr, DecidableEq

/-- The processor's `self._subscriptions` dict, as an association list keyed by
ticker (Python dicts keep insertion order; in-place value update preserves the
key's position). -/
abbrev Subs := List (String × MarketSubscription)

/-- `self._subscriptions.get(ticker)`. -/
def lookupSub : Subs → String → Option MarketSubscription
  | [], _ => none
  | (k, v) :: rest, t => if k = t then some v else lookupSub rest t

/-- `self._subscriptions[ticker] = sub` (replace in place, else append). -/
def setSub : Subs → String → MarketSubscription → Subs
  | [], t, s => [(t, s)]
  | (k, v) :: rest, t, s =>
      if k = t then (t, s) :: rest else (k, v) :: setSub rest t s

/-- `OrderbookProcessor.handle_snapshot` (`processor.py` lines 49-105):
missing ticker is a no-op; otherwise upsert the subscription, set
`last_seq = seq`, clear `is_stale`, stamp `subscribed_at = now`, and emit the
snapshot to the writer. -/
def handleSnapshot (subs : Subs) (msg : WsMsg) (now : Nat) :
    Subs × List ProcEffect :=
  if msg.market_ticker = "" then (subs, [])
  else
    let snap : OrderbookSnapshot :=
      { market_ticker := msg.market_ticker, seq := msg.seq, sid := msg.sid,
        yes := msg.yes, no := msg.no, ts := msg.ts }
    let sub0 :=
      (lookupSub subs msg.market_ticker).getD (MarketSubscription.fresh msg.market_ticker)
    let sub1 :=
      { sub0 with sid := msg.sid, last_seq := msg.seq, is_stale := false,
                  subscribed_at := some now }
    (setSub subs msg.market_ticker sub1, [ProcEffect.emitSnapshot snap])

/-- `OrderbookProcessor.handle_delta` (`processor.py` lines 107-176) together
with `_handle_gap` (lines 178-213): missing ticker is a no-op; an untracked
ticker is tracked opportunistically and the delta accepted; otherwise with
`expected = last_seq + 1`, `seq < expected` is discarded, `seq > expected`
marks the subscription stale and emits one gap record plus one resubscribe,
and `seq = expected` advances `last_seq` and emits the delta. -/
def handleDelta (subs : Subs) (msg : WsMsg) (now : Nat) :
    Subs × List ProcEffect :=
  if msg.market_ticker = "" then (subs, [])
  else
    let t := msg.market_ticker
    let d : OrderbookDelta :=
      { market_ticker := t, seq := msg.seq, sid := msg.sid, price := msg.price,
        delta := msg.delta, side := msg.side, ts := msg.ts }
    match lookupSub subs t with
    | none =>
        let sub1 :=
          { ticker := t, sid := msg.sid, last_seq := msg.seq,
            subscribed_at := none, is_stale := false : MarketSubscription }
        (setSub subs t sub1, [ProcEffect.emitDelta d])
    | some sub =>
        let expected := sub.last_seq + 1
        if msg.seq < expected then (subs, [])
        else if msg.seq > expected then
          (setSub subs t { sub with is_stale := true },
           [ProcEffect.emitGap
              { market_ticker := t, detected_at := now,
                expected_seq := expected, received_seq := msg.seq, sid := msg.sid },
            ProcEffect.resubscribe t])
        else
          (setSub subs t { sub with last_seq := msg.seq, sid := msg.sid },
           [ProcEffect.emitDelta d])

/-- Does an effect list contain a delta emission? -/
def emitsDelta (effs : List ProcEffect) : Bool :=
  effs.any fun e => match e with | ProcEffect.emitDelta _ => true | _ => false

theorem lookupSub_setSub_same (subs : Subs) (t : String) (s : MarketSubscription) :
    lookupSub (setSub subs t s) t = some s := by
  induction subs with
  | nil => simp [setSub, lookupSub]
  | cons kv rest ih =>
      by_cases h : kv.1 = t
      · simp [setSub, lookupSub, h]
      · simp [setSub, lookupSub, h, ih]

/-! ## Discovery (`src/collector/discovery.py`) -/

/-- `OverflowRecord` from `models.py` (dataclass defaults `event_ticker=""`,
`reason="cap_reached"`). -/
structure OverflowRecord where
  market_ticker : String
  event_ticker : String := ""
  reason : String := "cap_reached"
  deriving Repr, DecidableEq

/-- The dict passed to `on_market_update` in `handle_lifecycle_event`
(metadata abstracted as opaque key/value pairs). -/
structure MarketUpdate where
  ticker : String
  event_type : String
  metadata : List (String × String) := []
  deriving Repr, DecidableEq

/-- Effects `MarketDiscovery` produces through its callbacks and injected
functions (`on_market_update`, `on_overflow_record`, `subscribe_fn`,
`unsubscribe_fn`).  `enrichmentNeeded` stands for an invocation of the
`on_enrichment_needed` callback that `main.py` assigns on the discovery
object; it is part of the effect vocabulary so that we can reason about
whether the discovery code ever invokes it. -/
inductive DiscEffect where
  | marketUpdate (m : MarketUpdate)
  | subscribeCmd (tickers : List String)
  | unsubscribeCmd (tickers : List String)
  | overflowRecord (r : OverflowRecord)
  | enrichmentNeeded (ticker event_ticker event_type : String)
  deriving Repr, DecidableEq

/-- `ACTIVE_EVENT_TYPES` (`discovery.py` line 13). -/
def activeEventTypes : List String := ["created", "activated", "close_date_updated"]

/-- `TERMINAL_EVENT_TYPES` (`discovery.py` line 16). -/
def terminalEventTypes : List String := ["determined", "settled", "deactivated", "closed"]

/-- `MarketDiscovery` state: the `_active_subscriptions` / `_pending_subscriptions`
sets (duplicate-free lists maintained by guarded insertion, like Python sets)
and the FIFO `_overflow_tickers` list, plus the `max_subscriptions` setting. -/
structure DiscoveryState where
  maxSubscriptions : Nat
  active : List String
  pending : List String
  overflow : List String
  deriving Repr, DecidableEq

/-- Fresh `MarketDiscovery(max_subscriptions=m)`. -/
def DiscoveryState.init (m : Nat) : DiscoveryState :=
  { maxSubscriptions := m, active := [], pending := [], overflow := [] }

/-- Python `set.add`: insert if absent (list form keeps a stable order). -/
def setAdd (l : List String) (t : String) : List String :=
  if t ∈ l then l else l ++ [t]

/-- Python `set.discard` / `set.remove` on our duplicate-free lists. -/
def setDiscard (l : List String) (t : String) : List String :=
  l.filter (fun x => x ≠ t)

/-- `MarketDiscovery.at_capacity` (`discovery.py` lines 46-48): note it
compares only the number of ACTIVE subscriptions with the cap. -/
def atCapacity (st : DiscoveryState) : Bool :=
  st.active.length ≥ st.maxSubscriptions

/-- `MarketDiscovery._try_subscribe` (`discovery.py` lines 103-131). -/
def trySubscribe (st : DiscoveryState) (ticker : String) (event_ticker : String := "") :
    DiscoveryState × List DiscEffect :=
  if ticker ∈ st.active ∨ ticker ∈ st.pending then (st, [])
  else if atCapacity st then
    ({ st with overflow := st.overflow ++ [ticker] },
     [DiscEffect.overflowRecord { market_ticker := ticker, event_ticker := event_ticker }])
  else
    ({ st with pending := setAdd st.pending ticker },
     [DiscEffect.subscribeCmd [ticker]])

/-- One bounded unrolling of the `while` loop in
`MarketDiscovery._backfill_from_overflow` (`discovery.py` lines 150-156).
Each iteration pops one overflow ticker and calls `_try_subscribe`; the loop
guard has just established `not at_capacity`, so `_try_subscribe` never
re-appends to overflow, and the overflow list shrinks by one per iteration —
`fuel = overflow.length` therefore reproduces the loop exactly. -/
def backfillAux : Nat → DiscoveryState → DiscoveryState × List DiscEffect
  | 0, st => (st, [])
  | fuel + 1, st =>
      match st.overflow with
      | [] => (st, [])
      | t :: rest =>
          if atCapacity st then (st, [])
          else
            let step := trySubscribe { st with overflow := rest } t
            let next := backfillAux fuel step.1
            (next.1, step.2 ++ next.2)

/-- `MarketDiscovery._backfill_from_overflow`. -/
def backfillFromOverflow (st : DiscoveryState) : DiscoveryState × List DiscEffect :=
  backfillAux st.overflow.length st

/-- `MarketDiscovery._handle_terminal` (`discovery.py` lines 133-148). -/
def handleTerminal (st : DiscoveryState) (ticker : String) :
    DiscoveryState × List DiscEffect :=
  if ticker ∈ st.active then
    let st1 := { st with active := setDiscard st.active ticker }
    let bf := backfillFromOverflow st1
    ({ bf.1 with pending := setDiscard bf.1.pending ticker },
     DiscEffect.unsubscribeCmd [ticker] :: bf.2)
  else
    ({ st with pending := setDiscard st.pending ticker }, [])

/-- `MarketDiscovery.handle_lifecycle_event` (`discovery.py` lines 50-101):
missing ticker is a no-op; otherwise emit a market-metadata update, then route
active-inducing event types to `_try_subscribe` and terminal ones to
`_handle_terminal`. -/
def handleLifecycleEvent (st : DiscoveryState) (ticker event_type : String)
    (metadata : List (String × String) := []) :
    DiscoveryState × List DiscEffect :=
  if ticker = "" then (st, [])
  else
    let upd := DiscEffect.marketUpdate
      { ticker := ticker, event_type := event_type, metadata := metadata }
    if event_type ∈ activeEventTypes then
      let r := trySubscribe st ticker
      (r.1, upd :: r.2)
    else if event_type ∈ terminalEventTypes then
      let r := handleTerminal st ticker
      (r.1, upd :: r.2)
    else (st, [upd])

/-- `MarketDiscovery.confirm_subscription` (`discovery.py` lines 158-168). -/
def confirmSubscription (st : DiscoveryState) (ticker : String) : DiscoveryState :=
  { st with pending := setDiscard st.pending ticker,
            active := setAdd st.active ticker }

/-- `MarketDiscovery.confirm_unsubscription` (`discovery.py` lines 170-174). -/
def confirmUnsubscription (st : DiscoveryState) (ticker : String) : DiscoveryState :=
  { st with active := setDiscard st.active ticker,
            pending := setDiscard st.pending ticker }

/-- Does an effect list invoke the enrichment-needed callback? -/
def hasEnrichment (effs : List DiscEffect) : Bool :=
  effs.any fun e => match e with
    | DiscEffect.enrichmentNeeded _ _ _ => true
    | _ => false

/-! ## Writer (`src/collector/writer.py`)

The writer is embedded at two levels.  The buffer level (`flushBuffer`, the
`add*` functions) tracks buffer contents through append / swap / re-prepend.
The step level records, for each operation, the exact order of lock
acquisition, buffer mutation, buffer swap, database inserts and lock release
as they occur in the source, so that lock-discipline claims can be settled.
`asyncio` is cooperatively scheduled and every buffer access in `writer.py`
happens under `self._lock`, so this per-call trace is faithful. -/

/-- `TradeExecution` from `models.py`. -/
structure TradeExecution where
  trade_id : String
  market_ticker : String
  yes_price : Int
  no_price : Int
  count : Int
  taker_side : String
  ts : Nat
  deriving Repr, DecidableEq

/-- `SettlementData` from `models.py` (`None`-able fields are `Option`s). -/
structure SettlementData where
  market_ticker : String
  event_ticker : String
  result : Option String
  settlement_value : Option Int
  determined_at : Option Nat
  settled_at : Option Nat
  source : String
  metadata : Option String
  deriving Repr, DecidableEq

/-- The writer's destination tables / buffers. -/
inductive WTable where
  | snapshots | deltas | trades | settlements | gaps | overflowT | markets
  deriving Repr, DecidableEq

/-- One atomic step of a writer call: lock acquire/release, a buffer append,
the buffer swap (`batch = buffer[:]; buffer.clear()`), or a database insert
(the `await conn.execute*` round trip). -/
inductive WStep where
  | acquire
  | release
  | append (t : WTable)
  | swap (t : WTable)
  | dbInsert (t : WTable)
  deriving Repr, DecidableEq

/-- `DatabaseWriter` buffer state (`writer.py` lines 38-45) plus the
`max_batch_size` setting. -/
structure WriterState where
  maxBatchSize : Nat
  snapshots : List OrderbookSnapshot := []
  deltas : List OrderbookDelta := []
  trades : List TradeExecution := []
  settlements : List SettlementData := []
  gaps : List GapRecord := []
  overflowBuf : List OverflowRecord := []
  marketUpdates : List MarketUpdate := []
  deriving Repr, DecidableEq

/-- Common body of every `_flush_*` method (`writer.py`, e.g. lines 189-221):
empty buffer returns at once; otherwise the buffer is swapped out
(`batch = buffer[:]; buffer.clear()`) and inserted; on insert failure
(`ok = false`) the batch is re-prepended (`buffer = batch + buffer`).
`added` is whatever the buffer holds again at the point the except handler
runs (items appended during the flush window); the result is the buffer
content once those appends have happened. -/
def flushBuffer (t : WTable) (buf added : List α) (ok : Bool) :
    List α × List WStep :=
  if buf.isEmpty then (added, [])
  else if ok then (added, [WStep.swap t, WStep.dbInsert t])
  else (buf ++ added, [WStep.swap t, WStep.dbInsert t])

/-- `DatabaseWriter.add_snapshot` (`writer.py` lines 50-55): under the lock,
append and flush if the buffer reached `max_batch_size`.  `ok` is the fate of
the insert the flush may perform. -/
def addSnapshot (st : WriterState) (x : OrderbookSnapshot) (ok : Bool) :
    WriterState × List WStep :=
  let buf := st.snapshots ++ [x]
  if buf.length ≥ st.maxBatchSize then
    let fl := flushBuffer WTable.snapshots buf [] ok
    ({ st with snapshots := fl.1 },
     WStep.acquire :: WStep.append WTable.snapshots :: (fl.2 ++ [WStep.release]))
  else
    ({ st with snapshots := buf },
     [WStep.acquire, WStep.append WTable.snapshots, WStep.release])

/-- `DatabaseWriter.add_delta` (`writer.py` lines 57-62). -/
def addDelta (st : WriterState) (x : OrderbookDelta) (ok : Bool) :
    WriterState × List WStep :=
  let buf := st.deltas ++ [x]
  if buf.length ≥ st.maxBatchSize then
    let fl := flushBuffer WTable.deltas buf [] ok
    ({ st with deltas := fl.1 },
     WStep.acquire :: WStep.append WTable.deltas :: (fl.2 ++ [WStep.release]))
  else
    ({ st with deltas := buf },
     [WStep.acquire, WStep.append WTable.deltas, WStep.release])

/-- `DatabaseWriter.add_trade` (`writer.py` lines 64-69). -/
def addTrade (st : WriterState) (x : TradeExecution) (ok : Bool) :
    WriterState × List WStep :=
  let buf := st.trades ++ [x]
  if buf.length ≥ st.maxBatchSize then
    let fl := flushBuffer WTable.trades buf [] ok
    ({ st with trades := fl.1 },
     WStep.acquire :: WStep.append WTable.trades :: (fl.2 ++ [WStep.release]))
  else
    ({ st with trades := buf },
     [WStep.acquire, WStep.append WTable.trades, WStep.release])

/-- `DatabaseWriter.add_settlement` (`writer.py` lines 71-75): append, then
flush unconditionally (no size check — "immediate flush, low volume"). -/
def addSettlement (st : WriterState) (x : SettlementData) (ok : Bool) :
    WriterState × List WStep :=
  let buf := st.settlements ++ [x]
  let fl := flushBuffer WTable.settlements buf [] ok
  ({ st with settlements := fl.1 },
   WStep.acquire :: WStep.append WTable.settlements :: (fl.2 ++ [WStep.release]))

/-- `DatabaseWriter.add_gap` (`writer.py` lines 77-80): append only, no flush. -/
def addGap (st : WriterState) (x : GapRecord) : WriterState × List WStep :=
  ({ st with gaps := st.gaps ++ [x] },
   [WStep.acquire, WStep.append WTable.gaps, WStep.release])

/-- `DatabaseWriter.add_overflow` (`writer.py` lines 82-85): append only. -/
def addOverflow (st : WriterState) (x : OverflowRecord) : WriterState × List WStep :=
  ({ st with overflowBuf := st.overflowBuf ++ [x] },
   [WStep.acquire, WStep.append WTable.overflowT, WStep.release])

/-- `DatabaseWriter.add_market_update` (`writer.py` lines 87-90): append only. -/
def addMarketUpdate (st : WriterState) (x : MarketUpdate) : WriterState × List WStep :=
  ({ st with marketUpdates := st.marketUpdates ++ [x] },
   [WStep.acquire, WStep.append WTable.markets, WStep.release])

/-- Per-table insert outcomes handed to `flush_all`. -/
structure FlushOutcomes where
  snapshots : Bool := true
  deltas : Bool := true
  trades : Bool := true
  settlements : Bool := true
  gaps : Bool := true
  overflowOk : Bool := true
  markets : Bool := true
  deriving Repr, DecidableEq

/-- `DatabaseWriter.flush_all` (`writer.py` lines 168-187): under the lock,
flush every non-empty buffer (the `asyncio.gather` of the per-table flushes is
linearized here; each flush touches only its own buffer, and the lock state is
the same under any interleaving). -/
def flushAll (st : WriterState) (oks : FlushOutcomes) : WriterState × List WStep :=
  let fs := flushBuffer WTable.snapshots st.snapshots [] oks.snapshots
  let fd := flushBuffer WTable.deltas st.deltas [] oks.deltas
  let ft := flushBuffer WTable.trades st.trades [] oks.trades
  let fe := flushBuffer WTable.settlements st.settlements [] oks.settlements
  let fg := flushBuffer WTable.gaps st.gaps [] oks.gaps
  let fo := flushBuffer WTable.overflowT st.overflowBuf [] oks.overflowOk
  let fm := flushBuffer WTable.markets st.marketUpdates [] oks.markets
  ({ st with snapshots := fs.1, deltas := fd.1, trades := ft.1,
             settlements := fe.1, gaps := fg.1, overflowBuf := fo.1,
             marketUpdates := fm.1 },
   WStep.acquire ::
     (fs.2 ++ fd.2 ++ ft.2 ++ fe.2 ++ fg.2 ++ fo.2 ++ fm.2 ++ [WStep.release]))

/-- Checks that every `dbInsert` in a step trace happens while the lock is
held (`depth` = number of acquires minus releases so far). -/
def dbInsertsUnderLock : Nat → List WStep → Bool
  | _, [] => true
  | depth, WStep.acquire :: rest => dbInsertsUnderLock (depth + 1) rest
  | depth, WStep.release :: rest => dbInsertsUnderLock (depth - 1) rest
  | depth, WStep.dbInsert _ :: rest => decide (0 < depth) && dbInsertsUnderLock depth rest
  | depth, _ :: rest => dbInsertsUnderLock depth rest

/-- Checks that every `dbInsert` in a step trace happens while the lock is
NOT held — the discipline the specification asserts. -/
def dbInsertsOutsideLock : Nat → List WStep → Bool
  | _, [] => true
  | depth, WStep.acquire :: rest => dbInsertsOutsideLock (depth + 1) rest
  | depth, WStep.release :: rest => dbInsertsOutsideLock (depth - 1) rest
  | depth, WStep.dbInsert _ :: rest => decide (depth = 0) && dbInsertsOutsideLock depth rest
  | depth, _ :: rest => dbInsertsOutsideLock depth rest

/-- Checks that every `dbInsert` on a table is preceded by a `swap` of that
same table (the buffer is swapped out before the insert is attempted). -/
def swapPrecedesInsert : List WTable → List WStep → Bool
  | _, [] => true
  | seen, WStep.swap t :: rest => swapPrecedesInsert (t :: seen) rest
  | seen, WStep.dbInsert t :: rest => seen.contains t && swapPrecedesInsert seen rest
  | seen, _ :: rest => swapPrecedesInsert seen rest

/-- Does the trace perform any database insert on table `t`
(i.e. did a flush of that table actually run)? -/
def flushesTable (t : WTable) (tr : List WStep) : Bool :=
  tr.contains (WStep.dbInsert t)

/-! ## Stream client reconnect loop (`src/collector/connection.py`)

`KalshiWSConnection.start` (lines 80-110) is embedded as a fold over a script
of connection attempts.  Each attempt is one call of `_connect_and_run`; it
either raises (an I/O or protocol error, whether before or after the
handshake succeeded) or returns without raising (which in the source happens
only when `self._running` has been cleared).  The float arithmetic on the
backoff (`1.0`, doubling, `min(..., 60.0)`, `* 0.3`) is exact on these values,
so rationals model it faithfully.  `random.uniform(0, backoff * 0.3)` is
modelled by a draw `u ∈ [0, 1]` scaled by the range. -/

/-- How one `_connect_and_run` call ended: `errored` = an exception reached
the `except` clause of `start`; `clean` = it returned without raising. -/
inductive ConnEnd where
  | clean
  | errored
  deriving Repr, DecidableEq

/-- One connection attempt: whether the websocket handshake completed
(irrelevant to `start`'s control flow, which only sees raise-vs-return), how
the call ended, and the uniform draw for the jitter of the following sleep. -/
structure ConnAttempt where
  handshakeOk : Bool
  ending : ConnEnd
  draw : ℚ
  deriving Repr, DecidableEq

/-- `backoff = min(backoff * 2, max_backoff)` (`connection.py` line 110). -/
def nextBackoff (b : ℚ) : ℚ := min (b * 2) 60

/-- The sleeps performed by the `while self._running` loop of
`KalshiWSConnection.start`: on an errored attempt, sleep
`backoff + uniform(0, backoff * 0.3)` then double (capped at 60); on a clean
return, reset `backoff = 1.0` and continue with no sleep. -/
def connSleeps : ℚ → List ConnAttempt → List ℚ
  | _, [] => []
  | _, ⟨_, ConnEnd.clean, _⟩ :: rest => connSleeps 1 rest
  | b, ⟨_, ConnEnd.errored, u⟩ :: rest =>
      (b + u * (3 / 10 * b)) :: connSleeps (nextBackoff b) rest

/-- Modelled from the spec: the sleep schedule the claim describes, in which
the backoff is reset to its initial 1-second value whenever a handshake
completed cleanly, so the first retry after any successfully established
connection waits the minimal backoff again.  Kept separate from `connSleeps`
(which embeds the source) for comparison. -/
def connSleepsSpecReset : ℚ → List ConnAttempt → List ℚ
  | _, [] => []
  | _, ⟨_, ConnEnd.clean, _⟩ :: rest => connSleepsSpecReset 1 rest
  | b, ⟨hs, ConnEnd.errored, u⟩ :: rest =>
      let b1 := if hs then 1 else b
      (b1 + u * (3 / 10 * b1)) :: connSleepsSpecReset (nextBackoff b1) rest

/-- A script of `n` consecutive errored attempts with the given jitter draws
(no clean return in between). -/
def erroredScript (us : List ℚ) : List ConnAttempt :=
  us.map fun u => ⟨false, ConnEnd.errored, u⟩

/-! ## Upsert merges (`src/collector/writer.py` SQL)

Each `ON CONFLICT ... DO UPDATE SET` clause is embedded as a function from the
existing row and the inserted payload (`EXCLUDED`) to the updated row.
Nullable SQL columns are `Option`s; `COALESCE(EXCLUDED.c, t.c)` is
`coalesce`.  The `updated_at = now()` / `last_updated = now()` housekeeping
columns are not part of the row state compared here. -/

/-- SQL `COALESCE(new, old)`. -/
def coalesce : Option α → Option α → Option α
  | some v, _ => some v
  | none, old => old

/-- A `settlements` row's data columns (key `market_ticker` fixed). -/
structure SettlementRow where
  result : Option String
  settlement_value : Option Int
  determined_at : Option Nat
  settled_at : Option Nat
  source : Option String
  metadata : Option String
  deriving Repr, DecidableEq

/-- The `settlements` upsert merge from `_flush_settlements`
(`writer.py` lines 310-324): every column is COALESCE-merged EXCEPT
`source`, which is `source = EXCLUDED.source`. -/
def settlementsMerge (old new : SettlementRow) : SettlementRow :=
  { result := coalesce new.result old.result,
    settlement_value := coalesce new.settlement_value old.settlement_value,
    determined_at := coalesce new.determined_at old.determined_at,
    settled_at := coalesce new.settled_at old.settled_at,
    source := new.source,
    metadata := coalesce new.metadata old.metadata }

/-- A `markets` row's data columns (key `ticker` fixed). -/
structure MarketRow where
  status : Option String
  series_ticker : Option String
  metadata : Option String
  deriving Repr, DecidableEq

/-- The `markets` upsert merge from `_flush_market_updates`
(`writer.py` lines 415-424): `status = EXCLUDED.status` (no COALESCE),
the other columns COALESCE-merged. -/
def marketsMerge (old new : MarketRow) : MarketRow :=
  { status := new.status,
    series_ticker := coalesce new.series_ticker old.series_ticker,
    metadata := coalesce new.metadata old.metadata }

/-- An `events` row's data columns (key `event_ticker` fixed). -/
structure EventRow where
  series_ticker : Option String
  title : Option String
  sub_title : Option String
  category : Option String
  mutually_exclusive : Option Bool
  status : Option String
  strike_date : Option Nat
  strike_period : Option String
  metadata : Option String
  deriving Repr, DecidableEq

/-- The `events` upsert merge from `add_event_update`
(`writer.py` lines 96-113): every column COALESCE-merged. -/
def eventsMerge (old new : EventRow) : EventRow :=
  { series_ticker := coalesce new.series_ticker old.series_ticker,
    title := coalesce new.title old.title,
    sub_title := coalesce new.sub_title old.sub_title,
    category := coalesce new.category old.category,
    mutually_exclusive := coalesce new.mutually_exclusive old.mutually_exclusive,
    status := coalesce new.status old.status,
    strike_date := coalesce new.strike_date old.strike_date,
    strike_period := coalesce new.strike_period old.strike_period,
    metadata := coalesce new.metadata old.metadata }

/-- A `series` row's data columns (key `ticker` fixed). -/
structure SeriesRow where
  title : Option String
  frequency : Option String
  category : Option String
  tags : Option String
  settlement_sources : Option String
  metadata : Option String
  deriving Repr, DecidableEq

/-- The `series` upsert merge from `add_series_update`
(`writer.py` lines 133-145): every column COALESCE-merged. -/
def seriesMerge (old new : SeriesRow) : SeriesRow :=
  { title := coalesce new.title old.title,
    frequency := coalesce new.frequency old.frequency,
    category := coalesce new.category old.category,
    tags := coalesce new.tags old.tags,
    settlement_sources := coalesce new.settlement_sources old.settlement_sources,
    metadata := coalesce new.metadata old.metadata }

/-! ## Theorems for the claims -/

/-- C1: for every ticker with a tracked subscription, `handle_snapshot` sets
`last_seq` to the snapshot's `seq` and clears `is_stale`, and `handle_delta`
emits a delta to the Writer exactly when its `seq` equals `last_seq + 1`,
in which case `last_seq` advances to that value and the emitted delta carries
that `seq` — so between snapshot resets the accepted deltas form a contiguous
ascending sequence. -/
theorem processor_delta_contiguity
    (subs : Subs) (sub : MarketSubscription) (smsg dmsg : WsMsg) (now : Nat)
    (hne : dmsg.market_ticker ≠ "")
    (hsame : smsg.market_ticker = dmsg.market_ticker)
    (hsub : lookupSub subs dmsg.market_ticker = some sub) :
    (∃ sub1, lookupSub (handleSnapshot subs smsg now).1 dmsg.market_ticker = some sub1 ∧
       sub1.last_seq = smsg.seq ∧ sub1.is_stale = false) ∧
    (emitsDelta (handleDelta subs dmsg now).2 = true ↔ dmsg.seq = sub.last_seq + 1) ∧
    (dmsg.seq = sub.last_seq + 1 →
       (handleDelta subs dmsg now).2 =
         [ProcEffect.emitDelta
            { market_ticker := dmsg.market_ticker, seq := dmsg.seq, sid := dmsg.sid,
              price := dmsg.price, delta := dmsg.delta, side := dmsg.side,
              ts := dmsg.ts }] ∧
       ∃ sub2, lookupSub (handleDelta subs dmsg now).1 dmsg.market_ticker = some sub2 ∧
         sub2.last_seq = dmsg.seq) := by
  refine ⟨?_, ?_, ?_⟩
  · rw [handleSnapshot, if_neg (by rw [hsame]; exact hne)]
    exact ⟨_, by rw [hsame, lookupSub_setSub_same], rfl, rfl⟩
  · rw [handleDelta, if_neg hne]
    simp only [hsub]
    rcases lt_trichotomy dmsg.seq (sub.last_seq + 1) with h | h | h
    · rw [if_pos h]
      simp [emitsDelta]
      omega
    · rw [if_neg (show ¬dmsg.seq < sub.last_seq + 1 by omega),
          if_neg (show ¬sub.last_seq + 1 < dmsg.seq by omega)]
      simp [emitsDelta, h]
    · rw [if_neg (show ¬dmsg.seq < sub.last_seq + 1 by omega), if_pos h]
      simp [emitsDelta]
      omega
  · intro h
    rw [handleDelta, if_neg hne]
    simp only [hsub]
    rw [if_neg (show ¬dmsg.seq < sub.last_seq + 1 by omega),
        if_neg (show ¬sub.last_seq + 1 < dmsg.seq by omega)]
    exact ⟨rfl, _, lookupSub_setSub_same .., h ▸ rfl⟩

/-- Witness for C1 at a concrete tracked subscription with `last_seq = 5`,
snapshot `seq = 9` and an in-sequence delta `seq = 6`. -/
theorem processor_delta_contiguity_witness :
    let sub : MarketSubscription :=
      { ticker := "T", sid := 1, last_seq := 5, subscribed_at := some 0, is_stale := false }
    let subs : Subs := [("T", sub)]
    let smsg : WsMsg := { sid := 2, seq := 9, market_ticker := "T" }
    let dmsg : WsMsg := { sid := 2, seq := 6, market_ticker := "T", price := 50, delta := 3, side := "yes" }
    (∃ sub1, lookupSub (handleSnapshot subs smsg 7).1 "T" = some sub1 ∧
       sub1.last_seq = 9 ∧ sub1.is_stale = false) ∧
    (emitsDelta (handleDelta subs dmsg 7).2 = true ↔ (6 : Int) = 5 + 1) ∧
    ((6 : Int) = 5 + 1 →
       (handleDelta subs dmsg 7).2 =
         [ProcEffect.emitDelta
            { market_ticker := "T", seq := 6, sid := 2, price := 50, delta := 3,
              side := "yes", ts := 0 }] ∧
       ∃ sub2, lookupSub (handleDelta subs dmsg 7).1 "T" = some sub2 ∧
         sub2.last_seq = 6) :=
  processor_delta_contiguity
    [("T", { ticker := "T", sid := 1, last_seq := 5, subscribed_at := some 0, is_stale := false })]
    { ticker := "T", sid := 1, last_seq := 5, subscribed_at := some 0, is_stale := false }
    { sid := 2, seq := 9, market_ticker := "T" }
    { sid := 2, seq := 6, market_ticker := "T", price := 50, delta := 3, side := "yes" }
    7 (by decide) rfl (by rfl)

/-- C2: for a tracked ticker, a delta with `seq > last_seq + 1` marks the
subscription stale and produces exactly one gap record (with
`expected_seq = last_seq + 1`, `received_seq = seq`) followed by exactly one
resubscribe for that ticker, emits no delta, and leaves `last_seq` (and `sid`)
unchanged; a delta with `seq < last_seq + 1` is discarded with no state
change and no effects. -/
theorem processor_gap_policy
    (subs : Subs) (sub : MarketSubscription) (msg : WsMsg) (now : Nat)
    (hne : msg.market_ticker ≠ "")
    (hsub : lookupSub subs msg.market_ticker = some sub) :
    (sub.last_seq + 1 < msg.seq →
       (handleDelta subs msg now).1 =
           setSub subs msg.market_ticker { sub with is_stale := true } ∧
       (handleDelta subs msg now).2 =
           [ProcEffect.emitGap
              { market_ticker := msg.market_ticker, detected_at := now,
                expected_seq := sub.last_seq + 1, received_seq := msg.seq,
                sid := msg.sid },
            ProcEffect.resubscribe msg.market_ticker] ∧
       ∃ sub1, lookupSub (handleDelta subs msg now).1 msg.market_ticker = some sub1 ∧
         sub1.last_seq = sub.last_seq ∧ sub1.sid = sub.sid ∧ sub1.is_stale = true) ∧
    (msg.seq < sub.last_seq + 1 →
       handleDelta subs msg now = (subs, [])) := by
  constructor
  · intro h
    rw [handleDelta, if_neg hne]
    simp only [hsub]
    rw [if_neg (by omega), if_pos (by omega)]
    exact ⟨rfl, rfl, _, lookupSub_setSub_same .., rfl, rfl, rfl⟩
  · intro h
    rw [handleDelta, if_neg hne]
    simp only [hsub]
    rw [if_pos (by omega)]

/-- Witness for C2: tracked subscription with `last_seq = 1`; a delta with
`seq = 5` is a gap (expected 2, received 5), a delta with `seq = 1` is a
duplicate. -/
theorem processor_gap_policy_witness :
    let sub : MarketSubscription :=
      { ticker := "T", sid := 3, last_seq := 1, subscribed_at := some 0, is_stale := false }
    let subs : Subs := [("T", sub)]
    let gapMsg : WsMsg := { sid := 3, seq := 5, market_ticker := "T" }
    let dupMsg : WsMsg := { sid := 3, seq := 1, market_ticker := "T" }
    ((1 : Int) + 1 < 5 →
       (handleDelta subs gapMsg 9).1 = setSub subs "T" { sub with is_stale := true } ∧
       (handleDelta subs gapMsg 9).2 =
           [ProcEffect.emitGap
              { market_ticker := "T", detected_at := 9, expected_seq := 2,
                received_seq := 5, sid := 3 },
            ProcEffect.resubscribe "T"] ∧
       ∃ sub1, lookupSub (handleDelta subs gapMsg 9).1 "T" = some sub1 ∧
         sub1.last_seq = 1 ∧ sub1.sid = 3 ∧ sub1.is_stale = true) ∧
    ((1 : Int) < 1 + 1 → handleDelta subs dupMsg 9 = (subs, [])) :=
  ⟨fun h =>
     (processor_gap_policy
        [("T", { ticker := "T", sid := 3, last_seq := 1, subscribed_at := some 0, is_stale := false })]
        { ticker := "T", sid := 3, last_seq := 1, subscribed_at := some 0, is_stale := false }
        { sid := 3, seq := 5, market_ticker := "T" } 9 (by decide) (by rfl)).1 h,
   fun h =>
     (processor_gap_policy
        [("T", { ticker := "T", sid := 3, last_seq := 1, subscribed_at := some 0, is_stale := false })]
        { ticker := "T", sid := 3, last_seq := 1, subscribed_at := some 0, is_stale := false }
        { sid := 3, seq := 1, market_ticker := "T" } 9 (by decide) (by rfl)).2 h⟩

/-- C10: a snapshot or delta frame whose payload lacks a `market_ticker`
(absent or empty — both read back as `""` through `dict.get`) leaves the
subscription map untouched and invokes no callback at all. -/
theorem processor_missing_ticker_noop (subs : Subs) (msg : WsMsg) (now : Nat)
    (h : msg.market_ticker = "") :
    handleSnapshot subs msg now = (subs, []) ∧
    handleDelta subs msg now = (subs, []) := by
  rw [handleSnapshot, if_pos h, handleDelta, if_pos h]
  exact ⟨rfl, rfl⟩

/-- Witness for C10 on a frame with sequence data but no ticker. -/
theorem processor_missing_ticker_noop_witness :
    let subs : Subs := [("T", MarketSubscription.fresh "T")]
    let msg : WsMsg := { sid := 4, seq := 17 }
    msg.market_ticker = "" ∧
    handleSnapshot subs msg 3 = (subs, []) ∧
    handleDelta subs msg 3 = (subs, []) :=
  ⟨rfl, processor_missing_ticker_noop _ _ 3 rfl⟩

/-- C3 counterexample: with `max_subscriptions = 1`, two `created` lifecycle
events for distinct new tickers (no confirmations in between) leave the
discovery state with `|active| + |pending| = 2 > 1`: the capacity check in
`_try_subscribe` is `at_capacity`, which compares only `len(active)` with the
cap and ignores pending subscriptions, so the claimed invariant
`|active| + |pending| ≤ max_subscriptions` fails on a reachable state. -/
theorem discovery_capacity_invariant_cex :
    let st1 := (handleLifecycleEvent (DiscoveryState.init 1) "M-A" "created").1
    let st2 := (handleLifecycleEvent st1 "M-B" "created").1
    st2.active.length + st2.pending.length = 2 ∧
    ¬(st2.active.length + st2.pending.length ≤ st2.maxSubscriptions) := by
  decide

/-- C3 amended: an active-inducing lifecycle event for a new ticker (not in
`active ∪ pending`) is diverted to the overflow list with exactly one overflow
audit record — and not subscribed — exactly when `|active| ≥ max_subscriptions`
(the capacity check counts only active subscriptions, not pending ones);
below that bound the ticker goes to `pending` and one subscribe command is
issued. -/
theorem discovery_overflow_policy
    (st : DiscoveryState) (ticker event_type : String)
    (hne : ticker ≠ "") (hact : event_type ∈ activeEventTypes)
    (ha : ticker ∉ st.active) (hp : ticker ∉ st.pending) :
    (st.maxSubscriptions ≤ st.active.length →
       (handleLifecycleEvent st ticker event_type).1 =
           { st with overflow := st.overflow ++ [ticker] } ∧
       (handleLifecycleEvent st ticker event_type).2 =
           [DiscEffect.marketUpdate { ticker := ticker, event_type := event_type },
            DiscEffect.overflowRecord { market_ticker := ticker }]) ∧
    (st.active.length < st.maxSubscriptions →
       (handleLifecycleEvent st ticker event_type).1 =
           { st with pending := st.pending ++ [ticker] } ∧
       (handleLifecycleEvent st ticker event_type).2 =
           [DiscEffect.marketUpdate { ticker := ticker, event_type := event_type },
            DiscEffect.subscribeCmd [ticker]]) := by
  have hmem : ¬(ticker ∈ st.active ∨ ticker ∈ st.pending) := by
    intro h; rcases h with h | h
    · exact ha h
    · exact hp h
  constructor
  · intro hcap
    rw [handleLifecycleEvent, if_neg hne, if_pos hact]
    rw [trySubscribe, if_neg hmem,
        if_pos (show atCapacity st = true by simp [atCapacity]; omega)]
    exact ⟨rfl, rfl⟩
  · intro hcap
    rw [handleLifecycleEvent, if_neg hne, if_pos hact]
    rw [trySubscribe, if_neg hmem,
        if_neg (show ¬atCapacity st = true by simp [atCapacity]; omega)]
    refine ⟨?_, rfl⟩
    simp [setAdd, hp]

/-- Witness for C3 amended, exercising both sides of the capacity bound:
a saturated state (one active ticker, cap 1) diverts a `created` event to
overflow, and the empty state subscribes it. -/
theorem discovery_overflow_policy_witness :
    let full : DiscoveryState :=
      { maxSubscriptions := 1, active := ["M-0"], pending := [], overflow := [] }
    ((full.maxSubscriptions ≤ full.active.length →
        (handleLifecycleEvent full "M-1" "created").1 =
            { full with overflow := ["M-1"] } ∧
        (handleLifecycleEvent full "M-1" "created").2 =
            [DiscEffect.marketUpdate { ticker := "M-1", event_type := "created" },
             DiscEffect.overflowRecord { market_ticker := "M-1" }]) ∧
     (full.active.length < full.maxSubscriptions →
        (handleLifecycleEvent full "M-1" "created").1 =
            { full with pending := ["M-1"] } ∧
        (handleLifecycleEvent full "M-1" "created").2 =
            [DiscEffect.marketUpdate { ticker := "M-1", event_type := "created" },
             DiscEffect.subscribeCmd ["M-1"]])) ∧
    (handleLifecycleEvent (DiscoveryState.init 1) "M-1" "created").1 =
        { DiscoveryState.init 1 with pending := ["M-1"] } :=
  ⟨discovery_overflow_policy
     { maxSubscriptions := 1, active := ["M-0"], pending := [], overflow := [] }
     "M-1" "created" (by decide) (by decide) (by decide) (by decide),
   ((discovery_overflow_policy (DiscoveryState.init 1) "M-1" "created"
       (by decide) (by decide) (by decide) (by decide)).2 (by decide)).1⟩

theorem hasEnrichment_append (a b : List DiscEffect) :
    hasEnrichment (a ++ b) = (hasEnrichment a || hasEnrichment b) := by
  simp [hasEnrichment]

theorem hasEnrichment_trySubscribe (st : DiscoveryState) (ticker event_ticker : String) :
    hasEnrichment (trySubscribe st ticker event_ticker).2 = false := by
  rw [trySubscribe]
  split_ifs <;> simp [hasEnrichment]

theorem hasEnrichment_backfillAux (fuel : Nat) (st : DiscoveryState) :
    hasEnrichment (backfillAux fuel st).2 = false := by
  induction fuel generalizing st with
  | zero => simp [backfillAux, hasEnrichment]
  | succ fuel ih =>
      rw [backfillAux]
      rcases h : st.overflow with _ | ⟨t, rest⟩
      · simp [hasEnrichment]
      · by_cases hc : atCapacity st
        · simp [hc, hasEnrichment]
        · simp only [hc, if_false, Bool.false_eq_true]
          rw [hasEnrichment_append, hasEnrichment_trySubscribe, ih]
          rfl

/-- C4: `MarketDiscovery.handle_lifecycle_event` never invokes the
enrichment-needed callback — for no state and no lifecycle event (terminal
ones included) does any produced effect invoke `on_enrichment_needed`, even
though `main.py` (line 88) assigns that callback on the discovery object and
implements the downstream fire-and-forget enrichment task.  This refutes the
claim that terminal events cause the enrichment callback to be invoked. -/
theorem discovery_never_emits_enrichment
    (st : DiscoveryState) (ticker event_type : String)
    (metadata : List (String × String)) :
    hasEnrichment (handleLifecycleEvent st ticker event_type metadata).2 = false := by
  rw [handleLifecycleEvent]
  split_ifs with h1 h2 h3
  · simp [hasEnrichment]
  · have := hasEnrichment_trySubscribe st ticker ""
    simp only [hasEnrichment, List.any_cons] at this ⊢
    simp [this]
  · rw [handleTerminal]
    split_ifs with h4
    · have hbf := hasEnrichment_backfillAux
        (st.overflow.length) { st with active := setDiscard st.active ticker }
      simp only [hasEnrichment, List.any_cons, backfillFromOverflow] at hbf ⊢
      simp [hbf]
    · simp [hasEnrichment]
  · simp [hasEnrichment]

theorem flushBuffer_trace (t : WTable) (buf added : List α) (ok : Bool) :
    (flushBuffer t buf added ok).2 =
      if buf.isEmpty then [] else [WStep.swap t, WStep.dbInsert t] := by
  rw [flushBuffer]
  split_ifs <;> rfl

/-- C5 counterexample: an `add_snapshot` call that hits the batch-size
threshold performs its database insert while the writer mutex is still held —
the trace is acquire, append, swap, insert, release, and the insert does not
happen in an unlocked window, contradicting the claim that the DB insert is
performed only after releasing the lock. -/
theorem writer_insert_under_lock_cex :
    let st : WriterState := { maxBatchSize := 1 }
    let snap : OrderbookSnapshot :=
      { market_ticker := "T", seq := 1, sid := 1, yes := [], no := [], ts := 0 }
    (addSnapshot st snap true).2 =
      [WStep.acquire, WStep.append WTable.snapshots, WStep.swap WTable.snapshots,
       WStep.dbInsert WTable.snapshots, WStep.release] ∧
    dbInsertsOutsideLock 0 (addSnapshot st snap true).2 = false := by
  decide

/-- C5 amended: every flush swaps the buffer out before the DB insert, but the
insert runs while the mutex is still held: in each `add_*` call and in
`flush_all`, every database insert in the step trace occurs strictly between
the lock acquire and its release (so concurrent `add_*` calls block on the
mutex for the duration of the DB I/O), and every insert is preceded by a swap
of the same buffer. -/
theorem writer_lock_discipline (st : WriterState) (s : OrderbookSnapshot)
    (d : OrderbookDelta) (tr : TradeExecution) (se : SettlementData)
    (g : GapRecord) (ov : OverflowRecord) (mu : MarketUpdate)
    (ok : Bool) (oks : FlushOutcomes) :
    (dbInsertsUnderLock 0 (addSnapshot st s ok).2 = true ∧
       swapPrecedesInsert [] (addSnapshot st s ok).2 = true) ∧
    (dbInsertsUnderLock 0 (addDelta st d ok).2 = true ∧
       swapPrecedesInsert [] (addDelta st d ok).2 = true) ∧
    (dbInsertsUnderLock 0 (addTrade st tr ok).2 = true ∧
       swapPrecedesInsert [] (addTrade st tr ok).2 = true) ∧
    (dbInsertsUnderLock 0 (addSettlement st se ok).2 = true ∧
       swapPrecedesInsert [] (addSettlement st se ok).2 = true) ∧
    (dbInsertsUnderLock 0 (addGap st g).2 = true ∧
       swapPrecedesInsert [] (addGap st g).2 = true) ∧
    (dbInsertsUnderLock 0 (addOverflow st ov).2 = true ∧
       swapPrecedesInsert [] (addOverflow st ov).2 = true) ∧
    (dbInsertsUnderLock 0 (addMarketUpdate st mu).2 = true ∧
       swapPrecedesInsert [] (addMarketUpdate st mu).2 = true) ∧
    (dbInsertsUnderLock 0 (flushAll st oks).2 = true ∧
       swapPrecedesInsert [] (flushAll st oks).2 = true) := by
  refine ⟨?_, ?_, ?_, ?_, ?_, ?_, ?_, ?_⟩
  · rw [addSnapshot]
    split_ifs with h
    · dsimp only
      rw [flushBuffer_trace, if_neg (by simp)]
      exact ⟨rfl, rfl⟩
    · exact ⟨rfl, rfl⟩
  · rw [addDelta]
    split_ifs with h
    · dsimp only
      rw [flushBuffer_trace, if_neg (by simp)]
      exact ⟨rfl, rfl⟩
    · exact ⟨rfl, rfl⟩
  · rw [addTrade]
    split_ifs with h
    · dsimp only
      rw [flushBuffer_trace, if_neg (by simp)]
      exact ⟨rfl, rfl⟩
    · exact ⟨rfl, rfl⟩
  · rw [addSettlement]
    dsimp only
    rw [flushBuffer_trace, if_neg (by simp)]
    exact ⟨rfl, rfl⟩
  · exact ⟨rfl, rfl⟩
  · exact ⟨rfl, rfl⟩
  · exact ⟨rfl, rfl⟩
  · rw [flushAll]
    dsimp only
    simp only [flushBuffer_trace]
    split_ifs <;> exact ⟨rfl, rfl⟩

/-- C6 counterexample: an `add_gap` call that brings the gap buffer exactly to
`max_batch_size` does not flush it — `add_gap` only appends (no size check),
so the claimed size-triggered flush does not exist for the gaps buffer. -/
theorem writer_gap_size_no_flush_cex :
    let g1 : GapRecord :=
      { market_ticker := "A", detected_at := 0, expected_seq := 1, received_seq := 3, sid := 1 }
    let g2 : GapRecord :=
      { market_ticker := "B", detected_at := 0, expected_seq := 2, received_seq := 9, sid := 1 }
    let st : WriterState := { maxBatchSize := 2, gaps := [g1] }
    (addGap st g2).1.gaps.length = st.maxBatchSize ∧
    flushesTable WTable.gaps (addGap st g2).2 = false ∧
    (addGap st g2).1.gaps = [g1, g2] := by
  decide

/-- C6 amended: the size-triggered flush exists only for the snapshots, deltas
and trades buffers (an add that brings the buffer to `max_batch_size` flushes
it in the same call); `add_settlement` flushes on every call regardless of
size; `add_gap`, `add_overflow` and `add_market_update` never flush within the
add call — those buffers wait for the periodic flush loop or shutdown. -/
theorem writer_flush_triggers (st : WriterState) (s : OrderbookSnapshot)
    (d : OrderbookDelta) (tr : TradeExecution) (se : SettlementData)
    (g : GapRecord) (ov : OverflowRecord) (mu : MarketUpdate) (ok : Bool) :
    (st.maxBatchSize ≤ st.snapshots.length + 1 →
       flushesTable WTable.snapshots (addSnapshot st s ok).2 = true) ∧
    (st.snapshots.length + 1 < st.maxBatchSize →
       flushesTable WTable.snapshots (addSnapshot st s ok).2 = false) ∧
    (st.maxBatchSize ≤ st.deltas.length + 1 →
       flushesTable WTable.deltas (addDelta st d ok).2 = true) ∧
    (st.deltas.length + 1 < st.maxBatchSize →
       flushesTable WTable.deltas (addDelta st d ok).2 = false) ∧
    (st.maxBatchSize ≤ st.trades.length + 1 →
       flushesTable WTable.trades (addTrade st tr ok).2 = true) ∧
    (st.trades.length + 1 < st.maxBatchSize →
       flushesTable WTable.trades (addTrade st tr ok).2 = false) ∧
    flushesTable WTable.settlements (addSettlement st se ok).2 = true ∧
    flushesTable WTable.gaps (addGap st g).2 = false ∧
    flushesTable WTable.overflowT (addOverflow st ov).2 = false ∧
    flushesTable WTable.markets (addMarketUpdate st mu).2 = false := by
  refine ⟨?_, ?_, ?_, ?_, ?_, ?_, ?_, rfl, rfl, rfl⟩
  · intro h
    rw [addSnapshot, if_pos (by simp; omega)]
    dsimp only
    rw [flushBuffer_trace, if_neg (by simp)]
    rfl
  · intro h
    rw [addSnapshot, if_neg (by simp; omega)]
    rfl
  · intro h
    rw [addDelta, if_pos (by simp; omega)]
    dsimp only
    rw [flushBuffer_trace, if_neg (by simp)]
    rfl
  · intro h
    rw [addDelta, if_neg (by simp; omega)]
    rfl
  · intro h
    rw [addTrade, if_pos (by simp; omega)]
    dsimp only
    rw [flushBuffer_trace, if_neg (by simp)]
    rfl
  · intro h
    rw [addTrade, if_neg (by simp; omega)]
    rfl
  · rw [addSettlement]
    dsimp only
    rw [flushBuffer_trace, if_neg (by simp)]
    rfl

/-- Witness for C6 amended: batch size 1, so a single `add_snapshot` reaches
the threshold and flushes, while `add_gap` still does not. -/
theorem writer_flush_triggers_witness :
    let st : WriterState := { maxBatchSize := 1 }
    let s : OrderbookSnapshot :=
      { market_ticker := "T", seq := 1, sid := 1, yes := [], no := [], ts := 0 }
    let g : GapRecord :=
      { market_ticker := "T", detected_at := 0, expected_seq := 1, received_seq := 2, sid := 1 }
    (st.maxBatchSize ≤ st.snapshots.length + 1 →
       flushesTable WTable.snapshots (addSnapshot st s true).2 = true) ∧
    flushesTable WTable.gaps (addGap st g).2 = false ∧
    flushesTable WTable.snapshots (addSnapshot st s true).2 = true :=
  have h := writer_flush_triggers { maxBatchSize := 1 }
    { market_ticker := "T", seq := 1, sid := 1, yes := [], no := [], ts := 0 }
    { market_ticker := "", seq := 0, sid := 0, price := 0, delta := 0, side := "", ts := 0 }
    { trade_id := "", market_ticker := "", yes_price := 0, no_price := 0, count := 0,
      taker_side := "", ts := 0 }
    { market_ticker := "", event_ticker := "", result := none, settlement_value := none,
      determined_at := none, settled_at := none, source := "rest_api", metadata := none }
    { market_ticker := "T", detected_at := 0, expected_seq := 1, received_seq := 2, sid := 1 }
    { market_ticker := "" } { ticker := "", event_type := "" } true
  ⟨h.1, h.2.2.2.2.2.2.2.2.1, h.1 (by decide)⟩

/-- C7: when a batch insert fails, the buffer afterwards is exactly the failed
batch re-prepended in front of whatever was added during the flush window —
order is preserved, no item is dropped (every batch element is still in the
buffer, and the batch is the front segment), and with no intervening adds the
next flush attempts exactly the same batch again. -/
theorem writer_flush_failure_requeue (t : WTable) (batch added : List α)
    (hne : batch ≠ []) :
    (flushBuffer t batch added false).1 = batch ++ added ∧
    (∀ x ∈ batch, x ∈ (flushBuffer t batch added false).1) ∧
    ((flushBuffer t batch added false).1).take batch.length = batch ∧
    (flushBuffer t batch [] false).1 = batch := by
  have hE : batch.isEmpty = false := by
    cases batch with
    | nil => exact absurd rfl hne
    | cons a l => rfl
  refine ⟨?_, ?_, ?_, ?_⟩
  · rw [flushBuffer]
    simp [hE]
  · intro x hx
    rw [flushBuffer]
    simp [hE, hx]
  · rw [flushBuffer]
    simp [hE, List.take_append]
  · rw [flushBuffer]
    simp [hE]

/-- Witness for C7: a failed two-snapshot batch with one item added during the
flush window. -/
theorem writer_flush_failure_requeue_witness :
    ([1, 2] : List Nat) ≠ [] ∧
    (flushBuffer WTable.snapshots [1, 2] [3] false).1 = [1, 2, 3] ∧
    (∀ x ∈ ([1, 2] : List Nat), x ∈ (flushBuffer WTable.snapshots [1, 2] [3] false).1) ∧
    ((flushBuffer WTable.snapshots [1, 2] [3] false).1).take 2 = [1, 2] ∧
    (flushBuffer WTable.snapshots ([1, 2] : List Nat) [] false).1 = [1, 2] :=
  ⟨by decide, writer_flush_failure_requeue WTable.snapshots [1, 2] [3] (by decide)⟩

theorem nextBackoff_pow (k : Nat) :
    nextBackoff (min ((2:ℚ) ^ k) 60) = min ((2:ℚ) ^ (k + 1)) 60 := by
  unfold nextBackoff
  rcases le_total ((2:ℚ) ^ k) 60 with h | h
  · rw [min_eq_left h, pow_succ]
  · have h2 : (2:ℚ) ^ k ≤ 2 ^ (k + 1) := by
      have h3 : (2:ℚ) ^ (k + 1) = 2 ^ k * 2 := pow_succ 2 k
      nlinarith [pow_pos (show (0:ℚ) < 2 by norm_num) k]
    rw [min_eq_right h, min_eq_right (show (60:ℚ) ≤ 60 * 2 by norm_num),
        min_eq_right (le_trans h h2)]

theorem connSleeps_errored_getElem (us : List ℚ) (k i : Nat) (hi : i < us.length) :
    (connSleeps (min ((2:ℚ) ^ k) 60) (erroredScript us))[i]? =
      some (min ((2:ℚ) ^ (k + i)) 60 +
        us[i] * (3 / 10 * min ((2:ℚ) ^ (k + i)) 60)) := by
  induction us generalizing k i with
  | nil => simp at hi
  | cons u rest ih =>
      cases i with
      | zero => simp [erroredScript, connSleeps]
      | succ i =>
          have hi' : i < rest.length := by simpa using hi
          have harith : k + (i + 1) = k + 1 + i := by omega
          have step := ih (k + 1) i hi'
          simp only [erroredScript, List.map_cons, connSleeps,
            List.getElem?_cons_succ, List.getElem_cons_succ, nextBackoff_pow, harith]
          simpa [erroredScript] using step

/-- C8 counterexample: two failed attempts, then an attempt whose handshake
succeeds but whose connection later drops with an error, then another failure.
The source resets the backoff only when `_connect_and_run` returns without
raising, so the sleep after the successfully-established connection is 4s
(and the next one 8s), not the claimed reset-to-minimal 1s (the schedule the
spec's words prescribe is modelled by `connSleepsSpecReset`). -/
theorem conn_backoff_reset_cex :
    let script : List ConnAttempt :=
      [⟨false, ConnEnd.errored, 0⟩, ⟨false, ConnEnd.errored, 0⟩,
       ⟨true, ConnEnd.errored, 0⟩, ⟨false, ConnEnd.errored, 0⟩]
    connSleeps 1 script = [1, 2, 4, 8] ∧
    connSleepsSpecReset 1 script = [1, 2, 1, 2] ∧
    (connSleeps 1 script)[2]? ≠ (connSleepsSpecReset 1 script)[2]? := by
  refine ⟨?_, ?_, ?_⟩ <;> norm_num [connSleeps, connSleepsSpecReset, nextBackoff]

/-- C8 amended: during a run of consecutive errored attempts the sleep before
the `(i+1)`-th reconnect equals `min(2^i, 60)` seconds plus a jitter drawn
uniformly from `[0, 30%]` of that backoff (the draw `u ∈ [0,1]` scales the
range, so the jitter lies between 0 and `0.3 · min(2^i, 60)`), and the backoff
resets to its initial 1-second value only when `_connect_and_run` returns
without raising — not when a handshake completes. -/
theorem conn_backoff_schedule (us : List ℚ) (i : Nat) (hi : i < us.length)
    (hu : ∀ u ∈ us, 0 ≤ u ∧ u ≤ 1) :
    (connSleeps 1 (erroredScript us))[i]? =
        some (min ((2:ℚ) ^ i) 60 + us[i] * (3 / 10 * min ((2:ℚ) ^ i) 60)) ∧
    0 ≤ us[i] * (3 / 10 * min ((2:ℚ) ^ i) 60) ∧
    us[i] * (3 / 10 * min ((2:ℚ) ^ i) 60) ≤ 3 / 10 * min ((2:ℚ) ^ i) 60 ∧
    (∀ (b : ℚ) (hs : Bool) (u : ℚ) (rest : List ConnAttempt),
        connSleeps b (⟨hs, ConnEnd.clean, u⟩ :: rest) = connSleeps 1 rest) := by
  have hget := connSleeps_errored_getElem us 0 i hi
  simp only [Nat.zero_add] at hget
  have hmin : (0:ℚ) ≤ min ((2:ℚ) ^ i) 60 :=
    le_min (le_of_lt (pow_pos (by norm_num) i)) (by norm_num)
  have hbound : (0:ℚ) ≤ 3 / 10 * min ((2:ℚ) ^ i) 60 :=
    mul_nonneg (by norm_num) hmin
  obtain ⟨hu0, hu1⟩ := hu us[i] (List.getElem_mem hi)
  refine ⟨?_, mul_nonneg hu0 hbound, ?_, fun b hs u rest => rfl⟩
  · rw [show (1:ℚ) = min ((2:ℚ) ^ 0) 60 by norm_num]
    exact hget
  · calc us[i] * (3 / 10 * min ((2:ℚ) ^ i) 60)
        ≤ 1 * (3 / 10 * min ((2:ℚ) ^ i) 60) := mul_le_mul_of_nonneg_right hu1 hbound
      _ = 3 / 10 * min ((2:ℚ) ^ i) 60 := one_mul _

/-- Witness for C8 amended: second sleep of a two-failure run with jitter
draws `0` and `1/2`. -/
theorem conn_backoff_schedule_witness :
    (connSleeps 1 (erroredScript [0, 1/2]))[1]? =
        some (min ((2:ℚ) ^ 1) 60 + ([0, (1:ℚ)/2])[1] * (3 / 10 * min ((2:ℚ) ^ 1) 60)) ∧
    0 ≤ ([0, (1:ℚ)/2])[1] * (3 / 10 * min ((2:ℚ) ^ 1) 60) ∧
    ([0, (1:ℚ)/2])[1] * (3 / 10 * min ((2:ℚ) ^ 1) 60) ≤ 3 / 10 * min ((2:ℚ) ^ 1) 60 ∧
    (∀ (b : ℚ) (hs : Bool) (u : ℚ) (rest : List ConnAttempt),
        connSleeps b (⟨hs, ConnEnd.clean, u⟩ :: rest) = connSleeps 1 rest) :=
  conn_backoff_schedule [0, 1/2] 1 (by norm_num)
    (by
      intro u hu
      simp only [List.mem_cons, List.not_mem_nil, or_false] at hu
      rcases hu with h | h <;> subst h <;> norm_num)

theorem coalesce_idem (n o : Option α) : coalesce n (coalesce n o) = coalesce n o := by
  cases n <;> rfl

theorem coalesce_eq_none (n o : Option α) (h : coalesce n o = none) : o = none := by
  cases n with
  | none => exact h
  | some v => exact absurd h (by simp [coalesce])

/-- C9 counterexample: the `settlements` upsert sets
`source = EXCLUDED.source` with no COALESCE, so a payload whose `source`
field is null replaces an existing non-null `source` with null — refuting the
claim that no column of the four merge tables ever regresses to null. -/
theorem settlements_source_overwrite_cex :
    let old : SettlementRow :=
      { result := some "yes", settlement_value := some 100, determined_at := some 5,
        settled_at := some 6, source := some "lifecycle", metadata := some "m" }
    let payload : SettlementRow :=
      { result := none, settlement_value := none, determined_at := none,
        settled_at := none, source := none, metadata := none }
    old.source = some "lifecycle" ∧
    (settlementsMerge old payload).source = none := by
  decide

/-- C9 amended: all four upsert merges are idempotent (applying the same
payload twice equals applying it once), and every column is COALESCE-merged —
so a null payload field never replaces a non-null value — EXCEPT
`settlements.source` and `markets.status`, which unconditionally take the
payload's value. -/
theorem upsert_merge_laws (so sn : SettlementRow) (mo mn : MarketRow)
    (eo en : EventRow) (ro rn : SeriesRow) :
    (settlementsMerge (settlementsMerge so sn) sn = settlementsMerge so sn ∧
     marketsMerge (marketsMerge mo mn) mn = marketsMerge mo mn ∧
     eventsMerge (eventsMerge eo en) en = eventsMerge eo en ∧
     seriesMerge (seriesMerge ro rn) rn = seriesMerge ro rn) ∧
    (((settlementsMerge so sn).result = none → so.result = none) ∧
     ((settlementsMerge so sn).settlement_value = none → so.settlement_value = none) ∧
     ((settlementsMerge so sn).determined_at = none → so.determined_at = none) ∧
     ((settlementsMerge so sn).settled_at = none → so.settled_at = none) ∧
     ((settlementsMerge so sn).metadata = none → so.metadata = none) ∧
     (settlementsMerge so sn).source = sn.source) ∧
    (((marketsMerge mo mn).series_ticker = none → mo.series_ticker = none) ∧
     ((marketsMerge mo mn).metadata = none → mo.metadata = none) ∧
     (marketsMerge mo mn).status = mn.status) ∧
    (((eventsMerge eo en).series_ticker = none → eo.series_ticker = none) ∧
     ((eventsMerge eo en).title = none → eo.title = none) ∧
     ((eventsMerge eo en).sub_title = none → eo.sub_title = none) ∧
     ((eventsMerge eo en).category = none → eo.category = none) ∧
     ((eventsMerge eo en).mutually_exclusive = none → eo.mutually_exclusive = none) ∧
     ((eventsMerge eo en).status = none → eo.status = none) ∧
     ((eventsMerge eo en).strike_date = none → eo.strike_date = none) ∧
     ((eventsMerge eo en).strike_period = none → eo.strike_period = none) ∧
     ((eventsMerge eo en).metadata = none → eo.metadata = none)) ∧
    (((seriesMerge ro rn).title = none → ro.title = none) ∧
     ((seriesMerge ro rn).frequency = none → ro.frequency = none) ∧
     ((seriesMerge ro rn).category = none → ro.category = none) ∧
     ((seriesMerge ro rn).tags = none → ro.tags = none) ∧
     ((seriesMerge ro rn).settlement_sources = none → ro.settlement_sources = none) ∧
     ((seriesMerge ro rn).metadata = none → ro.metadata = none)) :=
  ⟨⟨by simp [settlementsMerge, coalesce_idem],
    by simp [marketsMerge, coalesce_idem],
    by simp [eventsMerge, coalesce_idem],
    by simp [seriesMerge, coalesce_idem]⟩,
   ⟨fun h => coalesce_eq_none _ _ h, fun h => coalesce_eq_none _ _ h,
    fun h => coalesce_eq_none _ _ h, fun h => coalesce_eq_none _ _ h,
    fun h => coalesce_eq_none _ _ h, rfl⟩,
   ⟨fun h => coalesce_eq_none _ _ h, fun h => coalesce_eq_none _ _ h, rfl⟩,
   ⟨fun h => coalesce_eq_none _ _ h, fun h => coalesce_eq_none _ _ h,
    fun h => coalesce_eq_none _ _ h, fun h => coalesce_eq_none _ _ h,
    fun h => coalesce_eq_none _ _ h, fun h => coalesce_eq_none _ _ h,
    fun h => coalesce_eq_none _ _ h, fun h => coalesce_eq_none _ _ h,
    fun h => coalesce_eq_none _ _ h⟩,
   ⟨fun h => coalesce_eq_none _ _ h, fun h => coalesce_eq_none _ _ h,
    fun h => coalesce_eq_none _ _ h, fun h => coalesce_eq_none _ _ h,
    fun h => coalesce_eq_none _ _ h, fun h => coalesce_eq_none _ _ h⟩⟩

/-- Witness for C9 amended: a partially-informative payload applied to a
partially-filled settlements row, plus the other three tables' merges on
representative rows. -/
theorem upsert_merge_laws_witness :
    let so : SettlementRow :=
      { result := some "yes", settlement_value := none, determined_at := some 5,
        settled_at := none, source := some "lifecycle", metadata := none }
    let sn : SettlementRow :=
      { result := none, settlement_value := some 100, determined_at := none,
        settled_at := some 6, source := some "rest_api", metadata := none }
    let mo : MarketRow := { status := some "active", series_ticker := none, metadata := some "m" }
    let mn : MarketRow := { status := some "settled", series_ticker := some "S", metadata := none }
    let eo : EventRow :=
      { series_ticker := some "S", title := none, sub_title := none, category := none,
        mutually_exclusive := none, status := none, strike_date := none,
        strike_period := none, metadata := none }
    let en : EventRow :=
      { series_ticker := none, title := some "t", sub_title := none, category := none,
        mutually_exclusive := some true, status := some "open", strike_date := none,
        strike_period := none, metadata := none }
    let ro : SeriesRow :=
      { title := some "t", frequency := none, category := none, tags := none,
        settlement_sources := none, metadata := none }
    let rn : SeriesRow :=
      { title := none, frequency := some "daily", category := none, tags := none,
        settlement_sources := none, metadata := some "md" }
    settlementsMerge (settlementsMerge so sn) sn = settlementsMerge so sn ∧
    marketsMerge (marketsMerge mo mn) mn = marketsMerge mo mn ∧
    eventsMerge (eventsMerge eo en) en = eventsMerge eo en ∧
    seriesMerge (seriesMerge ro rn) rn = seriesMerge ro rn ∧
    ((settlementsMerge so sn).result = none → so.result = none) ∧
    (settlementsMerge so sn).source = some "rest_api" ∧
    (marketsMerge mo mn).status = some "settled" ∧
    ((eventsMerge eo en).series_ticker = none → eo.series_ticker = none) ∧
    ((seriesMerge ro rn).title = none → ro.title = none) := by
  have h := upsert_merge_laws
    { result := some "yes", settlement_value := none, determined_at := some 5,
      settled_at := none, source := some "lifecycle", metadata := none }
    { result := none, settlement_value := some 100, determined_at := none,
      settled_at := some 6, source := some "rest_api", metadata := none }
    { status := some "active", series_ticker := none, metadata := some "m" }
    { status := some "settled", series_ticker := some "S", metadata := none }
    { series_ticker := some "S", title := none, sub_title := none, category := none,
      mutually_exclusive := none, status := none, strike_date := none,
      strike_period := none, metadata := none }
    { series_ticker := none, title := some "t", sub_title := none, category := none,
      mutually_exclusive := some true, status := some "open", strike_date := none,
      strike_period := none, metadata := none }
    { title := some "t", frequency := none, category := none, tags := none,
      settlement_sources := none, metadata := none }
    { title := none, frequency := some "daily", category := none, tags := none,
      settlement_sources := none, metadata := some "md" }
  exact ⟨h.1.1, h.1.2.1, h.1.2.2.1, h.1.2.2.2, h.2.1.1, h.2.1.2.2.2.2.2,
    h.2.2.1.2.2, h.2.2.2.1.1, h.2.2.2.2.1⟩

end Kalshibook
